import Mathlib

/-!
Verification of the example provider plugin adapter
(`examples/plugins/example-python/plugin.py`).

The file shallowly embeds the adapter's decision logic: the configuration
store and its merge semantics, request validation, the error classifier,
cost augmentation of successful completions, the health probe, and the
completion forwarding path.  Network effects are modelled by passing the
upstream outcome (response / network timeout / other exception) as an
explicit argument; wall-clock latency measurements are likewise passed in
as data.  JSON values are modelled by an inductive `Json` type with
rational numbers standing in for Python floats/ints.
-/

namespace Plugin

/-- JSON values as manipulated by the adapter.  Numbers are modelled as
rationals (Python ints and floats, idealised without rounding). -/
inductive Json where
  | null : Json
  | bool (b : Bool) : Json
  | num (q : ℚ) : Json
  | str (s : String) : Json
  | arr (elems : List Json) : Json
  | obj (fields : List (String × Json)) : Json

/-- Python truthiness of a JSON value (`not x` in the source checks this):
`None`, `False`, `0`, `""`, `[]`, `{}` are falsy, everything else truthy. -/
def truthy : Json → Bool
  | .null => false
  | .bool b => b
  | .num q => q != 0
  | .str s => s != ""
  | .arr xs => !xs.isEmpty
  | .obj fs => !fs.isEmpty

/-- First binding of key `k` in an association list (Python `d[k]` / `d.get(k)`
on a dict, whose keys are unique). -/
def getVal : List (String × Json) → String → Option Json
  | [], _ => none
  | kv :: rest, k => if kv.1 = k then some kv.2 else getVal rest k

/-- Python `k in d` for a dict: key presence. -/
def hasKey : List (String × Json) → String → Bool
  | [], _ => false
  | kv :: rest, k => if kv.1 = k then true else hasKey rest k

/-- `d[k] = v` on a dict: replace the first binding of `k`, or append a new
binding when `k` is absent. -/
def setKey : List (String × Json) → String → Json → List (String × Json)
  | [], k, v => [(k, v)]
  | kv :: rest, k, v =>
    if kv.1 = k then (k, v) :: rest else kv :: setKey rest k v

/-- Python `base.update(upd)`: each binding of `upd` is written into `base`
in order. -/
def dictUpdate (base upd : List (String × Json)) : List (String × Json) :=
  upd.foldl (fun acc kv => setKey acc kv.1 kv.2) base

/-- The adapter's closed error taxonomy. -/
inductive ErrorKind where
  | invalid_request : ErrorKind
  | authentication_failed : ErrorKind
  | rate_limit_exceeded : ErrorKind
  | model_not_found : ErrorKind
  | provider_unavailable : ErrorKind
  | timeout : ErrorKind
  | internal_error : ErrorKind
deriving DecidableEq

/-- The wire string of each error kind, as the Python source spells it. -/
def ErrorKind.pyName : ErrorKind → String
  | .invalid_request => "invalid_request"
  | .authentication_failed => "authentication_failed"
  | .rate_limit_exceeded => "rate_limit_exceeded"
  | .model_not_found => "model_not_found"
  | .provider_unavailable => "provider_unavailable"
  | .timeout => "timeout"
  | .internal_error => "internal_error"

/-- The `details` object attached to classified upstream errors. -/
structure ErrDetails where
  status_code : Nat
  latency_ms : Nat
deriving DecidableEq

/-- A plugin error body.  `message` is kept as a JSON value because the
source copies `error_body['error']['message']` into it verbatim, whatever
its JSON type; plain string messages are `Json.str`. -/
structure PluginError where
  code : ErrorKind
  message : Json
  transient : Bool
  details : Option ErrDetails

/-- The upstream HTTP status → error-kind mapping of `chat_completions`
(the `if resp.status_code == 401 ... else` chain, lines 291-300). -/
def classifyStatus (status : Nat) : ErrorKind :=
  if status = 401 then .authentication_failed
  else if status = 429 then .rate_limit_exceeded
  else if status = 404 then .model_not_found
  else if 500 ≤ status then .provider_unavailable
  else .internal_error

/-- The classified error object built at lines 304-312:
`transient` is the Python membership test
`code in ["rate_limit_exceeded", "provider_unavailable", "timeout"]`. -/
def classifiedError (status : Nat) (msg : Json) (latency : Nat) : PluginError :=
  let code := classifyStatus status
  { code := code
    message := msg
    transient :=
      ["rate_limit_exceeded", "provider_unavailable", "timeout"].contains code.pyName
    details := some ⟨status, latency⟩ }

/-- Python `k in x` for an arbitrary JSON value `x` (line 278 applies it to
`result` and `result['usage']`): key test on dicts, element test on lists,
substring test on strings; `none` models the `TypeError` raised on other
types (caught by the handler at line 321). -/
def pyIn (k : String) : Json → Option Bool
  | .obj fs => some (hasKey fs k)
  | .arr xs => some (xs.any (fun j => match j with | .str s => s == k | _ => false))
  | .str s => some (decide ((s.splitOn k).length > 1))
  | _ => none

/-- Python `x[k]` with a string key: dict lookup; `none` models the
`TypeError`/`KeyError` raised on every other shape. -/
def pyIndex (j : Json) (k : String) : Option Json :=
  match j with
  | .obj fs => getVal fs k
  | _ => none

/-- Python `x * c` for a float `c`: defined on numbers and booleans,
`none` models the `TypeError` raised otherwise. -/
def pyMulRat (j : Json) (c : ℚ) : Option ℚ :=
  match j with
  | .num q => some (q * c)
  | .bool b => some ((if b then (1 : ℚ) else 0) * c)
  | _ => none

/-- `cost_per_token = 0.00003` (line 280), idealised as a rational. -/
def COST_PER_TOKEN : ℚ := 3 / 100000

/-- The cost-augmentation step of the 200 path (lines 278-281):
`if 'usage' in result and 'total_tokens' in result['usage']:` set
`result['usage']['cost_usd'] = tokens * cost_per_token`.  `none` models an
exception escaping to the outer handler (line 321). -/
def augmentCost (result : Json) : Option Json :=
  match pyIn "usage" result with
  | none => none
  | some false => some result
  | some true =>
    match pyIndex result "usage" with
    | none => none
    | some usage =>
      match pyIn "total_tokens" usage with
      | none => none
      | some false => some result
      | some true =>
        match pyIndex usage "total_tokens" with
        | none => none
        | some tokens =>
          match pyMulRat tokens COST_PER_TOKEN with
          | none => none
          | some cost =>
            match result, usage with
            | .obj rfields, .obj ufields =>
              some (.obj (setKey rfields "usage"
                (.obj (setKey ufields "cost_usd" (.num cost)))))
            | _, _ => none

/-- The request-validation prefix of `chat_completions` (lines 243-255):
`not req_data.get('model')` then `not req_data.get('messages')`. -/
def validateReq (req : List (String × Json)) : Option PluginError :=
  if !truthy ((getVal req "model").getD .null) then
    some ⟨.invalid_request, .str "model is required", false, none⟩
  else if !truthy ((getVal req "messages").getD .null) then
    some ⟨.invalid_request, .str "messages is required", false, none⟩
  else
    none

/-- The upstream POST built at lines 258-270: endpoint and api_key are the
raw configured JSON values interpolated into the URL and the bearer header,
the request body is forwarded as-is, `timeout` is `config.get('timeout', 30)`. -/
structure UpstreamCall where
  endpoint : Json
  api_key : Json
  body : List (String × Json)
  timeout : Json

/-- An upstream HTTP response as the adapter observes it: status code,
the `content-type` header (if any), the result of `resp.json()` (a parsed
value, or the message of the raised exception), and `resp.text`. -/
structure UpstreamResponse where
  status : Nat
  contentType : Option String
  json : Except String Json
  text : String

/-- Outcome of the blocking upstream call: a response, a
`requests.Timeout`, or any other exception (with its message). -/
inductive UpstreamOutcome where
  | ok (r : UpstreamResponse) : UpstreamOutcome
  | timedOut : UpstreamOutcome
  | exc (msg : String) : UpstreamOutcome

/-- HTTP result of the `/chat/completions` endpoint: a 200 completion body,
or a plugin error with an explicit status. -/
inductive ChatOutcome where
  | ok (body : Json) : ChatOutcome
  | err (status : Nat) (e : PluginError) : ChatOutcome

/-- `error_body.get('error', {}).get('message', resp.text)` (line 288):
`none` models the `AttributeError` raised when `.get` is called on a
non-dict (an `error_body` or `error` value that is not a JSON object),
which escapes to the handler at line 321. -/
def errMsgOf (ebody : Json) (text : String) : Option Json :=
  match ebody with
  | .obj fs =>
    match (getVal fs "error").getD (.obj []) with
    | .obj efs => some ((getVal efs "message").getD (.str text))
    | _ => none
  | _ => none

/-- What `chat_completions` does with the upstream outcome (lines 265-327):
timeout → 504, other exception → 500, 200 → parse + cost augmentation,
non-200 → parse the error body when the content-type is exactly
`application/json` (else `{}`), take `error.message` from it (else
`resp.text`), classify the status, and surface the upstream status code.
`excMsg` stands for `str(e)` of an exception raised inside the `try`
(JSON parse failure on the 200 path, or a `TypeError` in augmentation). -/
def handleOutcome (o : UpstreamOutcome) (latency : Nat) (excMsg : String) : ChatOutcome :=
  match o with
  | .timedOut => .err 504 ⟨.timeout, .str "Request timeout", true, none⟩
  | .exc m => .err 500 ⟨.internal_error, .str m, false, none⟩
  | .ok r =>
    if r.status = 200 then
      match r.json with
      | .error m => .err 500 ⟨.internal_error, .str m, false, none⟩
      | .ok body =>
        match augmentCost body with
        | none => .err 500 ⟨.internal_error, .str excMsg, false, none⟩
        | some result => .ok result
    else
      if r.contentType == some "application/json" then
        match r.json with
        | .error m => .err 500 ⟨.internal_error, .str m, false, none⟩
        | .ok ebody =>
          match errMsgOf ebody r.text with
          | none => .err 500 ⟨.internal_error, .str excMsg, false, none⟩
          | some msg => .err r.status (classifiedError r.status msg latency)
      else
        match errMsgOf (.obj []) r.text with
        | none => .err 500 ⟨.internal_error, .str excMsg, false, none⟩
        | some msg => .err r.status (classifiedError r.status msg latency)

/-- The `/chat/completions` handler (lines 235-327).  `req` is the parsed
JSON request object; `f` yields the outcome of the upstream POST (the
network, abstracted); `latency` is the measured wall-clock latency in ms;
`excMsg` is the text of an unexpected in-handler exception, should one be
raised.  Note: no `is_initialized` gate — the upstream call is built from
whatever `api_key` the config holds (line 259). -/
def chat_completions (cfg req : List (String × Json))
    (f : UpstreamCall → UpstreamOutcome) (latency : Nat) (excMsg : String) : ChatOutcome :=
  match validateReq req with
  | some e => .err 400 e
  | none =>
    match getVal cfg "api_key", getVal cfg "endpoint" with
    | some key, some ep =>
      handleOutcome (f ⟨ep, key, req, (getVal cfg "timeout").getD (.num 30)⟩) latency excMsg
    | _, _ => .err 500 ⟨.internal_error, .str excMsg, false, none⟩

/-- Outcome of the best-effort connectivity probe made inside `/initialize`
(lines 150-159): a status, or any exception.  The source only logs it. -/
inductive ProbeOutcome where
  | response (status : Nat) : ProbeOutcome
  | exc (msg : String) : ProbeOutcome

/-- HTTP result of `/initialize`: 200 with `{}` (carrying the new
configuration state), or an error status with a plugin error body. -/
inductive InitOutcome where
  | ok (cfg : List (String × Json)) : InitOutcome
  | failed (status : Nat) (e : PluginError) : InitOutcome

/-- The `/initialize` handler (lines 129-170): reject with 400
`invalid_request` when the key `api_key` is absent from the supplied
mapping; otherwise `config.update(new_config)` and return 200 `{}`.
The connectivity probe's outcome is only logged (lines 156-159), so the
`probe` argument is unused by the result. -/
def initPlugin (cfg fields : List (String × Json)) (probe : ProbeOutcome) : InitOutcome :=
  if !hasKey fields "api_key" then
    .failed 400 ⟨.invalid_request, .str "api_key is required", false, none⟩
  else
    let _ := probe
    .ok (dictUpdate cfg fields)

/-- `config` at process start (lines 39-43). -/
def initialConfig : List (String × Json) :=
  [("api_key", .str ""), ("endpoint", .str "https://api.openai.com/v1"), ("timeout", .num 30)]

/-- The initialization test used by `health_check` (line 180):
`not config.get('api_key')`, i.e. truthiness of the stored value. -/
def is_initialized (cfg : List (String × Json)) : Bool :=
  truthy ((getVal cfg "api_key").getD .null)

/-- The static model catalog (lines 92-119), reduced to the fields the
logic reads; only its length reaches a handler (`len(MODELS)`, line 205). -/
def MODELS : List (String × ℚ) :=
  [("gpt-4", 3 / 100), ("gpt-3.5-turbo", 1 / 1000)]

/-- The `details` object of a healthy report (lines 203-206). -/
structure HealthDetails where
  provider_status : String
  models_available : Nat
deriving DecidableEq

/-- A health report body (timestamps, pure wall-clock data, are omitted). -/
structure HealthReport where
  healthy : Bool
  message : String
  latency_ms : Nat
  details : Option HealthDetails

/-- Outcome of the health ping (`GET <endpoint>/models`, lines 189-193):
a response status, a `requests.Timeout`, or any other exception. -/
inductive HealthOutcome where
  | response (status : Nat) : HealthOutcome
  | timedOut : HealthOutcome
  | failure (msg : String) : HealthOutcome

/-- HTTP result of the `/health` endpoint.  Flask handlers can return a
report or an error body with a status; the `report` constructor carries
the status `jsonify` responds with (200 unless overridden). -/
inductive HealthHttp where
  | report (status : Nat) (r : HealthReport) : HealthHttp
  | failure (status : Nat) (e : PluginError) : HealthHttp

/-- The `/health` handler (lines 173-232): when `config.get('api_key')` is
falsy report `Not initialized` with zero latency and no ping; otherwise
ping the provider and fold every outcome — 200, other status, timeout,
any other exception — into a 200 report. -/
def health_check (cfg : List (String × Json)) (ping : HealthOutcome) (latency : Nat) : HealthHttp :=
  if !is_initialized cfg then
    .report 200 ⟨false, "Not initialized", 0, none⟩
  else
    match ping with
    | .response status =>
      if status = 200 then
        .report 200 ⟨true, "OK", latency, some ⟨"connected", MODELS.length⟩⟩
      else
        .report 200 ⟨false, "Provider returned status " ++ toString status, latency, none⟩
    | .timedOut => .report 200 ⟨false, "Health check timeout", latency, none⟩
    | .failure m => .report 200 ⟨false, m, latency, none⟩

/-! ### Helper lemmas -/

theorem getVal_setKey (fs : List (String × Json)) (k k' : String) (v : Json) :
    getVal (setKey fs k v) k' = if k' = k then some v else getVal fs k' := by
  induction fs with
  | nil =>
    by_cases hk : k' = k
    · simp [getVal, setKey, hk]
    · simp [getVal, setKey, hk, Ne.symm hk]
  | cons kv rest ih =>
    by_cases hhead : kv.1 = k
    · by_cases hk : k' = k
      · simp [setKey, getVal, hhead, hk]
      · simp [setKey, getVal, hhead, hk, Ne.symm hk]
    · by_cases hk2 : kv.1 = k'
      · have hk : ¬ k' = k := fun h => hhead (hk2.trans h)
        simp [setKey, getVal, hhead, hk2, hk]
      · simp [setKey, getVal, hhead, hk2, ih]

theorem hasKey_iff_mem (fs : List (String × Json)) (k : String) :
    hasKey fs k = true ↔ k ∈ fs.map Prod.fst := by
  induction fs with
  | nil => simp [hasKey]
  | cons kv rest ih =>
    by_cases hk : kv.1 = k
    · simp [hasKey, hk]
    · simp [hasKey, hk, ih, Ne.symm hk]

theorem getVal_isSome_iff_hasKey (fs : List (String × Json)) (k : String) :
    (getVal fs k).isSome = hasKey fs k := by
  induction fs with
  | nil => rfl
  | cons kv rest ih =>
    by_cases hk : kv.1 = k
    · simp [getVal, hasKey, hk]
    · simp [getVal, hasKey, hk, ih]

theorem getVal_dictUpdate (base upd : List (String × Json)) (k : String)
    (hnd : (upd.map Prod.fst).Nodup) :
    getVal (dictUpdate base upd) k =
      if hasKey upd k then getVal upd k else getVal base k := by
  induction upd generalizing base with
  | nil => simp [dictUpdate, hasKey, getVal]
  | cons kv rest ih =>
    have hstep : dictUpdate base (kv :: rest) = dictUpdate (setKey base kv.1 kv.2) rest := rfl
    simp only [List.map_cons, List.nodup_cons] at hnd
    rw [hstep, ih _ hnd.2]
    by_cases hrest : hasKey rest k
    · have hkk : ¬ kv.1 = k := by
        intro h
        exact hnd.1 (h ▸ (hasKey_iff_mem rest k).mp hrest)
      simp [hasKey, getVal, hkk, hrest]
    · rw [getVal_setKey]
      by_cases hk : k = kv.1
      · subst hk
        simp [hasKey, getVal]
        exact fun h => absurd h hrest
      · have hkk : ¬ kv.1 = k := fun h => hk h.symm
        simp [hasKey, getVal, hkk, hk, hrest]

theorem transient_contains_iff (k : ErrorKind) :
    (["rate_limit_exceeded", "provider_unavailable", "timeout"].contains k.pyName = true) ↔
      k ∈ [ErrorKind.rate_limit_exceeded, .provider_unavailable, .timeout] := by
  cases k <;> decide

theorem handleOutcome_err_transient (o : UpstreamOutcome) (latency : Nat) (excMsg : String)
    (status : Nat) (pe : PluginError)
    (h : handleOutcome o latency excMsg = .err status pe) :
    pe.transient = true ↔
      pe.code ∈ [ErrorKind.rate_limit_exceeded, .provider_unavailable, .timeout] := by
  cases o with
  | timedOut =>
    simp only [handleOutcome, ChatOutcome.err.injEq] at h
    rw [← h.2]
    simp
  | exc m =>
    simp only [handleOutcome, ChatOutcome.err.injEq] at h
    rw [← h.2]
    simp
  | ok r =>
    simp only [handleOutcome] at h
    split at h
    · split at h
      · simp only [ChatOutcome.err.injEq] at h
        rw [← h.2]
        simp
      · split at h
        · simp only [ChatOutcome.err.injEq] at h
          rw [← h.2]
          simp
        · exact absurd h (by simp)
    · split at h
      · split at h
        · simp only [ChatOutcome.err.injEq] at h
          rw [← h.2]
          simp
        · split at h
          · simp only [ChatOutcome.err.injEq] at h
            rw [← h.2]
            simp
          · simp only [ChatOutcome.err.injEq] at h
            rw [← h.2]
            simpa [classifiedError] using transient_contains_iff (classifyStatus r.status)
      · split at h
        · simp only [ChatOutcome.err.injEq] at h
          rw [← h.2]
          simp
        · simp only [ChatOutcome.err.injEq] at h
          rw [← h.2]
          simpa [classifiedError] using transient_contains_iff (classifyStatus r.status)

theorem validateReq_err (req : List (String × Json)) (e : PluginError)
    (h : validateReq req = some e) : e.code = .invalid_request ∧ e.transient = false := by
  unfold validateReq at h
  split at h
  · simp only [Option.some.injEq] at h
    rw [← h]
    exact ⟨rfl, rfl⟩
  · split at h
    · simp only [Option.some.injEq] at h
      rw [← h]
      exact ⟨rfl, rfl⟩
    · exact absurd h (by simp)

theorem chat_err_transient (cfg req : List (String × Json)) (f : UpstreamCall → UpstreamOutcome)
    (latency : Nat) (excMsg : String) (status : Nat) (pe : PluginError)
    (h : chat_completions cfg req f latency excMsg = .err status pe) :
    pe.transient = true ↔
      pe.code ∈ [ErrorKind.rate_limit_exceeded, .provider_unavailable, .timeout] := by
  unfold chat_completions at h
  split at h
  · rename_i e he
    simp only [ChatOutcome.err.injEq] at h
    obtain ⟨hcode, htr⟩ := validateReq_err req e he
    rw [← h.2, htr, hcode]
    simp
  · split at h
    · exact handleOutcome_err_transient _ _ _ _ _ h
    · simp only [ChatOutcome.err.injEq] at h
      rw [← h.2]
      simp

/-! ### Claim theorems -/

/-- C1: the error classifier is total and deterministic over HTTP status
codes — for every status other than 200 it returns exactly one kind:
`authentication_failed` for 401, `rate_limit_exceeded` for 429,
`model_not_found` for 404, `provider_unavailable` for every status ≥ 500,
and `internal_error` for any other non-200 status, the exact matches
taking precedence over the ≥ 500 range. -/
theorem classifier_table (s : Nat) (h : s ≠ 200) :
    (s = 401 → classifyStatus s = .authentication_failed) ∧
    (s = 429 → classifyStatus s = .rate_limit_exceeded) ∧
    (s = 404 → classifyStatus s = .model_not_found) ∧
    (s ≠ 401 → s ≠ 429 → s ≠ 404 → 500 ≤ s → classifyStatus s = .provider_unavailable) ∧
    (s ≠ 401 → s ≠ 429 → s ≠ 404 → s < 500 → classifyStatus s = .internal_error) ∧
    (∃! k : ErrorKind, classifyStatus s = k) := by
  refine ⟨fun h1 => ?_, fun h2 => ?_, fun h3 => ?_, fun h1 h2 h3 h5 => ?_,
    fun h1 h2 h3 h5 => ?_, ⟨classifyStatus s, rfl, fun k hk => hk.symm⟩⟩
  · subst h1; rfl
  · subst h2; rfl
  · subst h3; rfl
  · simp [classifyStatus, h1, h2, h3, h5]
  · simp [classifyStatus, h1, h2, h3, Nat.not_le.mpr h5]

theorem classifier_table_witness :
    (401 ≠ 200) ∧
    ((401 = 401 → classifyStatus 401 = .authentication_failed) ∧
     (401 = 429 → classifyStatus 401 = .rate_limit_exceeded) ∧
     (401 = 404 → classifyStatus 401 = .model_not_found) ∧
     (401 ≠ 401 → 401 ≠ 429 → 401 ≠ 404 → 500 ≤ 401 →
       classifyStatus 401 = .provider_unavailable) ∧
     (401 ≠ 401 → 401 ≠ 429 → 401 ≠ 404 → 401 < 500 →
       classifyStatus 401 = .internal_error) ∧
     (∃! k : ErrorKind, classifyStatus 401 = k)) :=
  ⟨by decide, classifier_table 401 (by decide)⟩

/-- C2: every `PluginError` the adapter produces has `transient = true` iff
its kind is `rate_limit_exceeded`, `provider_unavailable` or `timeout`;
errors classified as `authentication_failed`, `model_not_found` or
`internal_error` carry `transient = false`, and the network-timeout path
always yields `transient = true`. -/
theorem transient_iff_kind :
    (∀ (cfg req : List (String × Json)) (f : UpstreamCall → UpstreamOutcome)
       (latency : Nat) (excMsg : String) (status : Nat) (pe : PluginError),
       chat_completions cfg req f latency excMsg = .err status pe →
       (pe.transient = true ↔
         pe.code ∈ [ErrorKind.rate_limit_exceeded, .provider_unavailable, .timeout])) ∧
    (∀ (cfg fields : List (String × Json)) (probe : ProbeOutcome)
       (status : Nat) (pe : PluginError),
       initPlugin cfg fields probe = .failed status pe →
       (pe.transient = true ↔
         pe.code ∈ [ErrorKind.rate_limit_exceeded, .provider_unavailable, .timeout])) ∧
    (∀ (status : Nat) (msg : Json) (latency : Nat),
       (classifiedError status msg latency).code ∈
           [ErrorKind.authentication_failed, .model_not_found, .internal_error] →
       (classifiedError status msg latency).transient = false) ∧
    (∀ (latency : Nat) (excMsg : String),
       handleOutcome .timedOut latency excMsg =
         .err 504 ⟨.timeout, .str "Request timeout", true, none⟩) := by
  refine ⟨fun cfg req f latency excMsg status pe h =>
      chat_err_transient cfg req f latency excMsg status pe h,
    fun cfg fields probe status pe h => ?_, fun status msg latency h => ?_,
    fun latency excMsg => rfl⟩
  · unfold initPlugin at h
    split at h
    · simp only [InitOutcome.failed.injEq] at h
      rw [← h.2]
      simp
    · exact absurd h (by simp)
  · have hc : (classifiedError status msg latency).code = classifyStatus status := rfl
    rw [hc] at h
    have := transient_contains_iff (classifyStatus status)
    simp only [classifiedError]
    cases hk : classifyStatus status <;> rw [hk] at h <;> first | (exact absurd h (by decide)) | decide

theorem transient_iff_kind_witness :
    (chat_completions initialConfig [("model", .str "m"), ("messages", .arr [.str "x"])]
        (fun _ => .timedOut) 0 "" =
      .err 504 ⟨.timeout, .str "Request timeout", true, none⟩) ∧
    ((⟨ErrorKind.timeout, .str "Request timeout", true, none⟩ : PluginError).transient = true ↔
      (⟨ErrorKind.timeout, .str "Request timeout", true, none⟩ : PluginError).code ∈
        [ErrorKind.rate_limit_exceeded, .provider_unavailable, .timeout]) :=
  ⟨rfl, transient_iff_kind.1 initialConfig [("model", .str "m"), ("messages", .arr [.str "x"])]
    (fun _ => .timedOut) 0 "" 504 ⟨ErrorKind.timeout, .str "Request timeout", true, none⟩ rfl⟩

/-- C5: validation fails with `invalid_request` / "model is required" when
`model` is absent or falsy (empty), with "messages is required" when
`messages` is absent or empty, checks run model-first (a request missing
both reports the model message), no other field is validated (the request
is otherwise arbitrary) and no network call is made before a validation
failure (the result is independent of the upstream function `f`). -/
theorem validation_rules (cfg req : List (String × Json)) (latency : Nat) (excMsg : String) :
    (truthy ((getVal req "model").getD .null) = false →
      ∀ f, chat_completions cfg req f latency excMsg =
        .err 400 ⟨.invalid_request, .str "model is required", false, none⟩) ∧
    (truthy ((getVal req "model").getD .null) = true →
      truthy ((getVal req "messages").getD .null) = false →
      ∀ f, chat_completions cfg req f latency excMsg =
        .err 400 ⟨.invalid_request, .str "messages is required", false, none⟩) := by
  constructor
  · intro hm f
    unfold chat_completions validateReq
    simp [hm]
  · intro hm hmsg f
    unfold chat_completions validateReq
    simp [hm, hmsg]

theorem validation_rules_witness :
    (truthy ((getVal [("messages", Json.arr [.str "x"])] "model").getD .null) = false ∧
      chat_completions initialConfig [("messages", Json.arr [.str "x"])]
          (fun _ => .timedOut) 0 "" =
        .err 400 ⟨.invalid_request, .str "model is required", false, none⟩) ∧
    (truthy ((getVal [("model", Json.str "m")] "model").getD .null) = true ∧
      truthy ((getVal [("model", Json.str "m")] "messages").getD .null) = false ∧
      chat_completions initialConfig [("model", Json.str "m")] (fun _ => .timedOut) 0 "" =
        .err 400 ⟨.invalid_request, .str "messages is required", false, none⟩) :=
  ⟨⟨rfl, (validation_rules initialConfig [("messages", Json.arr [.str "x"])] 0 "").1 rfl
      (fun _ => .timedOut)⟩,
   ⟨rfl, rfl, (validation_rules initialConfig [("model", Json.str "m")] 0 "").2 rfl rfl
      (fun _ => .timedOut)⟩⟩

/-- C6: whenever `is_initialized` is false, the health check reports
`healthy = false`, message "Not initialized" and `latency_ms = 0`, and
makes no network call (the result is independent of the ping outcome and
of any measured latency). -/
theorem health_uninitialized (cfg : List (String × Json)) (h : is_initialized cfg = false) :
    ∀ (ping : HealthOutcome) (latency : Nat),
      health_check cfg ping latency = .report 200 ⟨false, "Not initialized", 0, none⟩ := by
  intro ping latency
  unfold health_check
  simp [h]

theorem health_uninitialized_witness :
    is_initialized initialConfig = false ∧
    health_check initialConfig (.response 200) 7 =
      .report 200 ⟨false, "Not initialized", 0, none⟩ :=
  ⟨rfl, health_uninitialized initialConfig rfl (.response 200) 7⟩

/-- C7: the health check never propagates an error: for every configuration
and every ping outcome (200, non-200, timeout, other failure) it returns a
normal report with HTTP status 200 — never a `PluginError` body or a
non-200 status — and the outcome is encoded in the `healthy` flag. -/
theorem health_never_errors (cfg : List (String × Json)) (ping : HealthOutcome) (latency : Nat) :
    ∃ r : HealthReport, health_check cfg ping latency = .report 200 r ∧
      (r.healthy = true ↔ (is_initialized cfg = true ∧ ping = .response 200)) := by
  by_cases hinit : is_initialized cfg
  · cases ping with
    | response status =>
      by_cases hs : status = 200
      · subst hs
        refine ⟨⟨true, "OK", latency, some ⟨"connected", MODELS.length⟩⟩, ?_, ?_⟩
        · unfold health_check
          simp [hinit]
        · simp [hinit]
      · refine ⟨⟨false, "Provider returned status " ++ toString status, latency, none⟩, ?_, ?_⟩
        · unfold health_check
          simp [hinit, hs]
        · simp [hinit, hs]
    | timedOut =>
      refine ⟨⟨false, "Health check timeout", latency, none⟩, ?_, ?_⟩
      · unfold health_check
        simp [hinit]
      · simp [hinit]
    | failure m =>
      refine ⟨⟨false, m, latency, none⟩, ?_, ?_⟩
      · unfold health_check
        simp [hinit]
      · simp [hinit]
  · simp only [Bool.not_eq_true] at hinit
    refine ⟨⟨false, "Not initialized", 0, none⟩, ?_, ?_⟩
    · unfold health_check
      simp [hinit]
    · simp [hinit]

/-- C10: `initialize` only checks that the key `api_key` is present, not
that its value is non-empty: supplying `{"api_key": ""}` succeeds (200 with
an empty object, modelled by `InitOutcome.ok`), stores the empty string,
and yet `is_initialized` still returns false afterwards. -/
theorem init_accepts_empty_key (cfg : List (String × Json)) (probe : ProbeOutcome) :
    ∃ newCfg, initPlugin cfg [("api_key", .str "")] probe = .ok newCfg ∧
      getVal newCfg "api_key" = some (.str "") ∧
      is_initialized newCfg = false := by
  refine ⟨setKey cfg "api_key" (.str ""), ?_, ?_, ?_⟩
  · rfl
  · rw [getVal_setKey]
    simp
  · unfold is_initialized
    rw [getVal_setKey]
    simp [truthy]

/-- C3: on a valid request whose upstream call returns a non-200 response
(conforming to the assumed upstream contract: either the response declares
content-type `application/json` and carries a JSON object whose `error`
field, defaulted to `{}`, is an object, or it is not declared as JSON and
the parsed error body is taken to be `{}`), the adapter returns a
`PluginError` whose kind is the classifier's result for the status, whose
message is the body's nested `error.message` field when present and the
raw response text otherwise, whose details carry the upstream status code
and the measured latency, and the upstream status is surfaced unchanged as
the adapter's response status. -/
theorem upstream_error_mapping (cfg req : List (String × Json))
    (f : UpstreamCall → UpstreamOutcome) (latency : Nat) (excMsg : String)
    (key ep : Json) (r : UpstreamResponse)
    (hv : validateReq req = none)
    (hkey : getVal cfg "api_key" = some key)
    (hep : getVal cfg "endpoint" = some ep)
    (hf : f ⟨ep, key, req, (getVal cfg "timeout").getD (.num 30)⟩ = .ok r)
    (hs : r.status ≠ 200) :
    (∀ fs efs, r.contentType = some "application/json" →
      r.json = .ok (.obj fs) →
      (getVal fs "error").getD (.obj []) = .obj efs →
      chat_completions cfg req f latency excMsg =
        .err r.status
          (classifiedError r.status ((getVal efs "message").getD (.str r.text)) latency)) ∧
    (r.contentType ≠ some "application/json" →
      chat_completions cfg req f latency excMsg =
        .err r.status (classifiedError r.status (.str r.text) latency)) ∧
    (∀ msg, (classifiedError r.status msg latency).code = classifyStatus r.status ∧
      (classifiedError r.status msg latency).details = some ⟨r.status, latency⟩) := by
  have hchat : chat_completions cfg req f latency excMsg =
      handleOutcome (.ok r) latency excMsg := by
    simp only [chat_completions, hv, hkey, hep, hf]
  refine ⟨fun fs efs hct hjson herr => ?_, fun hct => ?_, fun msg => ⟨rfl, rfl⟩⟩
  · rw [hchat]
    simp only [handleOutcome, hjson, hct, errMsgOf, herr, if_neg hs, beq_self_eq_true, if_true]
  · rw [hchat]
    have hbeq : (r.contentType == some "application/json") = false := by
      simpa using hct
    simp only [handleOutcome, hbeq, if_neg hs, Bool.false_eq_true, if_false, errMsgOf, getVal,
      Option.getD_none]

theorem upstream_error_mapping_witness :
    validateReq [("model", Json.str "gpt-4"), ("messages", Json.arr [.str "hi"])] = none ∧
    getVal initialConfig "api_key" = some (.str "") ∧
    getVal initialConfig "endpoint" = some (.str "https://api.openai.com/v1") ∧
    (429 : Nat) ≠ 200 ∧
    chat_completions initialConfig [("model", Json.str "gpt-4"), ("messages", Json.arr [.str "hi"])]
        (fun _ => .ok ⟨429, some "application/json",
          .ok (.obj [("error", .obj [("message", .str "slow down")])]), "raw"⟩) 5 "E" =
      .err 429 ⟨.rate_limit_exceeded, .str "slow down", true, some ⟨429, 5⟩⟩ :=
  ⟨rfl, rfl, rfl, by decide, by
    have h := (upstream_error_mapping initialConfig
      [("model", Json.str "gpt-4"), ("messages", Json.arr [.str "hi"])]
      (fun _ => .ok ⟨429, some "application/json",
        .ok (.obj [("error", .obj [("message", .str "slow down")])]), "raw"⟩) 5 "E"
      (.str "") (.str "https://api.openai.com/v1")
      ⟨429, some "application/json",
        .ok (.obj [("error", .obj [("message", .str "slow down")])]), "raw"⟩
      rfl rfl rfl rfl (by decide)).1
      [("error", .obj [("message", .str "slow down")])] [("message", .str "slow down")]
      rfl rfl rfl
    exact h⟩

/-- C4: on a 200 upstream response whose body carries
`usage.total_tokens`, the adapter sets `usage.cost_usd` to
`total_tokens * COST_PER_TOKEN` with `COST_PER_TOKEN = 0.00003`
(1000 tokens cost exactly 0.03, rationals standing in for floats);
a body without `usage`, or whose `usage` object lacks `total_tokens`,
passes through unchanged. -/
theorem augment_cost_ok (rfields ufields : List (String × Json)) (t : ℚ) :
    (getVal rfields "usage" = some (.obj ufields) →
      getVal ufields "total_tokens" = some (.num t) →
      augmentCost (.obj rfields) =
        some (.obj (setKey rfields "usage"
          (.obj (setKey ufields "cost_usd" (.num (t * COST_PER_TOKEN))))))) ∧
    (hasKey rfields "usage" = false → augmentCost (.obj rfields) = some (.obj rfields)) ∧
    (getVal rfields "usage" = some (.obj ufields) →
      hasKey ufields "total_tokens" = false →
      augmentCost (.obj rfields) = some (.obj rfields)) ∧
    ((1000 : ℚ) * COST_PER_TOKEN = 3 / 100) ∧
    (∀ (cfg req : List (String × Json)) (f : UpstreamCall → UpstreamOutcome)
       (latency : Nat) (excMsg : String) (key ep : Json) (r : UpstreamResponse)
       (body result : Json),
       validateReq req = none →
       getVal cfg "api_key" = some key →
       getVal cfg "endpoint" = some ep →
       f ⟨ep, key, req, (getVal cfg "timeout").getD (.num 30)⟩ = .ok r →
       r.status = 200 → r.json = .ok body → augmentCost body = some result →
       chat_completions cfg req f latency excMsg = .ok result) := by
  refine ⟨fun hu ht => ?_, fun hno => ?_, fun hu hno => ?_, by norm_num [COST_PER_TOKEN],
    fun cfg req f latency excMsg key ep r body result hv hkey hep hf h200 hjson haug => ?_⟩
  · have hk1 : hasKey rfields "usage" = true := by
      rw [← getVal_isSome_iff_hasKey, hu]
      rfl
    have hk2 : hasKey ufields "total_tokens" = true := by
      rw [← getVal_isSome_iff_hasKey, ht]
      rfl
    unfold augmentCost
    simp only [pyIn, pyIndex, pyMulRat, hk1, hk2, hu, ht]
  · unfold augmentCost
    simp only [pyIn, hno]
  · have hk1 : hasKey rfields "usage" = true := by
      rw [← getVal_isSome_iff_hasKey, hu]
      rfl
    unfold augmentCost
    simp only [pyIn, pyIndex, hk1, hu, hno]
  · have hchat : chat_completions cfg req f latency excMsg =
        handleOutcome (.ok r) latency excMsg := by
      simp only [chat_completions, hv, hkey, hep, hf]
    rw [hchat]
    simp only [handleOutcome, hjson, haug, h200, if_true, if_pos]

theorem augment_cost_ok_witness :
    getVal [("usage", Json.obj [("total_tokens", .num 1000)])] "usage" =
      some (.obj [("total_tokens", .num 1000)]) ∧
    getVal [("total_tokens", Json.num 1000)] "total_tokens" = some (.num 1000) ∧
    augmentCost (.obj [("usage", Json.obj [("total_tokens", .num 1000)])]) =
      some (.obj [("usage", .obj [("total_tokens", .num 1000),
        ("cost_usd", .num (1000 * COST_PER_TOKEN))])]) ∧
    (1000 : ℚ) * COST_PER_TOKEN = 3 / 100 :=
  ⟨rfl, rfl,
    (augment_cost_ok [("usage", Json.obj [("total_tokens", .num 1000)])]
      [("total_tokens", Json.num 1000)] 1000).1 rfl rfl,
    (augment_cost_ok [] [] 0).2.2.2.1⟩

/-- C8: `chat_completions` has no initialization gate: with the stored
`api_key` equal to the empty string (so `is_initialized` is false), every
request that passes validation still triggers the upstream call, built
with the empty string as the bearer credential, and the result is whatever
handling of that call's outcome dictates; in particular an upstream 401
rejection surfaces as `authentication_failed` — not as any local guard. -/
theorem no_init_gate (cfg req : List (String × Json)) (f : UpstreamCall → UpstreamOutcome)
    (latency : Nat) (excMsg : String) (ep : Json)
    (hv : validateReq req = none)
    (hkey : getVal cfg "api_key" = some (.str ""))
    (hep : getVal cfg "endpoint" = some ep) :
    (chat_completions cfg req f latency excMsg =
      handleOutcome (f ⟨ep, .str "", req, (getVal cfg "timeout").getD (.num 30)⟩)
        latency excMsg) ∧
    (is_initialized cfg = false) ∧
    (∀ r : UpstreamResponse,
      f ⟨ep, .str "", req, (getVal cfg "timeout").getD (.num 30)⟩ = .ok r →
      r.status = 401 → r.contentType ≠ some "application/json" →
      chat_completions cfg req f latency excMsg =
        .err 401 (classifiedError 401 (.str r.text) latency) ∧
      (classifiedError 401 (.str r.text) latency).code = .authentication_failed) := by
  refine ⟨?_, ?_, fun r hf h401 hct => ⟨?_, rfl⟩⟩
  · simp only [chat_completions, hv, hkey, hep]
  · unfold is_initialized
    rw [hkey]
    rfl
  · have hchat : chat_completions cfg req f latency excMsg =
        handleOutcome (.ok r) latency excMsg := by
      simp only [chat_completions, hv, hkey, hep, hf]
    rw [hchat]
    have hbeq : (r.contentType == some "application/json") = false := by
      simpa using hct
    have hs : r.status ≠ 200 := by
      rw [h401]
      decide
    simp only [handleOutcome, hbeq, if_neg hs, Bool.false_eq_true, if_false, errMsgOf, getVal,
      Option.getD_none, h401]
    simp

theorem no_init_gate_witness :
    validateReq [("model", Json.str "gpt-4"), ("messages", Json.arr [.str "hi"])] = none ∧
    getVal initialConfig "api_key" = some (.str "") ∧
    is_initialized initialConfig = false ∧
    chat_completions initialConfig [("model", Json.str "gpt-4"), ("messages", Json.arr [.str "hi"])]
        (fun _ => .ok ⟨401, none, .error "no body", "Unauthorized"⟩) 3 "E" =
      .err 401 ⟨.authentication_failed, .str "Unauthorized", false, some ⟨401, 3⟩⟩ :=
  ⟨rfl, rfl, rfl, by
    have h := ((no_init_gate initialConfig
      [("model", Json.str "gpt-4"), ("messages", Json.arr [.str "hi"])]
      (fun _ => .ok ⟨401, none, .error "no body", "Unauthorized"⟩) 3 "E"
      (.str "https://api.openai.com/v1") rfl rfl rfl).2.2
      ⟨401, none, .error "no body", "Unauthorized"⟩ rfl rfl (by simp)).1
    exact h⟩

/-- C9: a successful `initialize(fields)` stores exactly the merge of the
supplied fields over the prior configuration — every key present in
`fields` takes the supplied value and every absent key keeps its prior
value — and the connectivity probe's outcome never changes the result or
the stored configuration. -/
theorem init_merge (cfg fields : List (String × Json)) (probe : ProbeOutcome)
    (hnd : (fields.map Prod.fst).Nodup) (hk : hasKey fields "api_key" = true) :
    ∃ newCfg, initPlugin cfg fields probe = .ok newCfg ∧
      (∀ k, getVal newCfg k =
        if hasKey fields k then getVal fields k else getVal cfg k) ∧
      (∀ probe2, initPlugin cfg fields probe2 = initPlugin cfg fields probe) := by
  refine ⟨dictUpdate cfg fields, ?_, fun k => getVal_dictUpdate cfg fields k hnd, fun p2 => rfl⟩
  unfold initPlugin
  simp [hk]

theorem init_merge_witness :
    ((([("api_key", Json.str "k"), ("timeout", Json.num 60)] :
        List (String × Json)).map Prod.fst).Nodup) ∧
    hasKey [("api_key", Json.str "k"), ("timeout", Json.num 60)] "api_key" = true ∧
    (∃ newCfg,
      initPlugin initialConfig [("api_key", Json.str "k"), ("timeout", Json.num 60)]
          (.exc "connection refused") = .ok newCfg ∧
      (∀ k, getVal newCfg k =
        if hasKey [("api_key", Json.str "k"), ("timeout", Json.num 60)] k then
          getVal [("api_key", Json.str "k"), ("timeout", Json.num 60)] k
        else getVal initialConfig k) ∧
      (∀ probe2,
        initPlugin initialConfig [("api_key", Json.str "k"), ("timeout", Json.num 60)] probe2 =
          initPlugin initialConfig [("api_key", Json.str "k"), ("timeout", Json.num 60)]
            (.exc "connection refused"))) :=
  ⟨by simp, rfl,
    init_merge initialConfig [("api_key", Json.str "k"), ("timeout", Json.num 60)]
      (.exc "connection refused") (by simp) rfl⟩

end Plugin
